import Mathlib

/-!
# Verification of the bankGO account service

Shallow embedding of the bankGO repository (Go): a minimal bank-account
REST service with bcrypt-hashed credentials, randomly allocated account
numbers, JWT-based route authorization, and a Postgres-backed account
store.  Source files embedded: `api.go`, `storage.go`, `types.go`
(account model and credential code), `main.go`.

Go byte slices (`[]byte`) and strings are modelled as `List Char`;
machine integers (`int`, `int64`) as `Int` (no arithmetic in the code
can overflow: account numbers lie in `[0, 100000)`); fallible Go code
(`(T, error)` returns) as `Except String`; the JSON wire format as an
explicit inductive `Jval`.
-/

set_option autoImplicit false

namespace BankGo

/-- Byte strings (`[]byte` / `string` in Go). -/
abbrev Bytes := List Char

/-- JSON values, as produced by `encoding/json` on the Go structs. -/
inductive Jval where
  | str (s : String)
  | num (n : Int)
  | obj (fields : List (String × Jval))
  | arr (elems : List Jval)

/-! ## Credential codec (bcrypt)

`golang.org/x/crypto/bcrypt` is an external library (not part of this
repository).  Modelled from the spec: §4.1 "Credential Codec" — a
one-way transform with a randomized salt and a tunable work factor.
The bcrypt output format is kept: the 7-character version/cost header
`$2a$10$` (cost 10 = `bcrypt.DefaultCost`), a 22-character salt
encoding, then the digest.  The key-derivation core is modelled as an
explicit function parameter `f : salt → password → digest`; its
collision-freeness (the "overwhelming probability" idealization of the
spec) is a hypothesis of the theorems that need it.  The salt, drawn
inside `bcrypt.GenerateFromPassword` from the entropy source, is an
explicit parameter.  `bcrypt` rejects passwords longer than 72 bytes
with `ErrPasswordTooLong`. -/

/-- The fixed `$2a$10$` header every hash produced with the default cost
starts with. -/
def bcryptMagic : Bytes := ['$', '2', 'a', '$', '1', '0', '$']

/-- The encoded bcrypt hash: header, salt encoding, digest. -/
def bcryptEncode (f : Bytes → Bytes → Bytes) (salt pw : Bytes) : Bytes :=
  bcryptMagic ++ salt ++ f salt pw

/-- `bcrypt.GenerateFromPassword`: fails on passwords longer than 72
bytes, otherwise hashes with a fresh salt. -/
def GenerateFromPassword (f : Bytes → Bytes → Bytes) (salt pw : Bytes) :
    Except String Bytes :=
  if pw.length > 72 then .error "bcrypt: password length exceeds 72 bytes"
  else .ok (bcryptEncode f salt pw)

/-- `bcrypt.CompareHashAndPassword` reduced to a boolean (the Go account
method only tests `== nil`): re-parses the salt from the stored hash,
re-derives the digest from the candidate, compares.  Total — a mismatch
or malformed hash is a normal `false`, never an exception. -/
def CompareHashAndPassword (f : Bytes → Bytes → Bytes)
    (stored candidate : Bytes) : Bool :=
  stored.take 7 == bcryptMagic &&
    stored.drop 29 == f ((stored.drop 7).take 22) candidate

/-! ## Account model (`types.go`) -/

/-- The `Account` struct.  `CreatedAt` (`time.Time`) is an abstract
timestamp; `EncryptedPassword` carries the bcrypt hash and its JSON tag
is `-` (never serialized). -/
structure Account where
  id : Int
  firstName : String
  lastName : String
  number : Int
  balance : Int
  createdAt : Int
  encryptedPassword : Bytes

/-- `TransferRequest` struct. -/
structure TransferRequest where
  toAccount : Int
  amount : Int

/-- `CreateAccountRequest` struct. -/
structure CreateAccountRequest where
  firstName : String
  lastName : String
  password : Bytes

/-- `(*Account).ValidatePW`: bcrypt comparison against the stored hash. -/
def Account.ValidatePW (f : Bytes → Bytes → Bytes) (a : Account)
    (pw : Bytes) : Bool :=
  CompareHashAndPassword f a.encryptedPassword pw

/-- `NewAccount`: hashes the password (propagating the bcrypt error),
draws the account number as `rand.Intn(100000)` (the draw `rnd` from the
generator is an explicit parameter, reduced mod 100000), stamps the
creation time.  `ID` and `Balance` keep their Go zero values. -/
def NewAccount (f : Bytes → Bytes → Bytes) (salt : Bytes)
    (firstname lastname : String) (password : Bytes)
    (now : Int) (rnd : Nat) : Except String Account :=
  match GenerateFromPassword f salt password with
  | .error e => .error e
  | .ok encpw =>
      .ok { id := 0
            firstName := firstname
            lastName := lastname
            number := Int.ofNat (rnd % 100000)
            balance := 0
            createdAt := now
            encryptedPassword := encpw }

/-! ## JSON serialization of accounts

`encoding/json` on `Account` with its struct tags: every field appears
under its tag name except `EncryptedPassword`, whose tag `json:"-"`
omits it. -/

/-- The JSON object `encoding/json` produces for an `Account`. -/
def accountJSON (a : Account) : Jval :=
  .obj [("id", .num a.id),
        ("firstName", .str a.firstName),
        ("lastName", .str a.lastName),
        ("number", .num a.number),
        ("balance", .num a.balance),
        ("createdat", .num a.createdAt)]

/-- The JSON object for a `TransferRequest`. -/
def transferJSON (t : TransferRequest) : Jval :=
  .obj [("toAccount", .num t.toAccount), ("amount", .num t.amount)]

/-! ## JWT issue / verify (`api.go`, library `github.com/golang-jwt/jwt/v4`)

Tokens are modelled structurally: a header algorithm, a claim map (both
claims the code ever writes are numbers; `int64` values survive the
JSON round-trip exactly here, where Go's `float64` decoding is exact for
the magnitudes involved), and a signature.  The HMAC primitive is an
explicit parameter `mac : secret → alg → claims → signature`; signing
and verifying with the same `mac` and secret is the faithful rendering
of `SignedString` / `jwt.Parse` sharing `JWT_SECRET`.  `SignedString`
with an HMAC method accepts any `[]byte` key — the empty key included —
and never fails on this code path.  A wire token is either a parsed
token or garbage (`jwt.Parse` rejects malformed strings).  The claims
set by the code carry no `exp` claim, so `MapClaims.Valid` enforces no
expiry — the spec's "computed but unchecked" note. -/

/-- A JWT claim map: claim name to numeric value. -/
abbrev Claims := List (String × Int)

/-- A structurally decoded JWT. -/
structure JwtToken where
  alg : String
  claims : Claims
  sig : String

/-- What arrives in the `x-jwt-token` header: a parseable token or a
malformed string. -/
inductive WireToken where
  | malformed
  | tok (t : JwtToken)

/-- `claims["accountNumber"]`-style lookup. -/
def lookupClaim (cs : Claims) (k : String) : Option Int :=
  match cs.find? (fun p => p.1 == k) with
  | some p => some p.2
  | none => none

/-- `createJWT`: fixed claim set `{expiresAt: 15000, accountNumber:
account.Number}`, signed HS256 with the server secret.  HMAC signing
succeeds for every byte-slice key, so no error path is reachable. -/
def createJWT (mac : String → String → Claims → String)
    (secret : String) (account : Account) : Except String JwtToken :=
  let claims : Claims :=
    [("expiresAt", 15000), ("accountNumber", account.number)]
  .ok { alg := "HS256", claims := claims, sig := mac secret "HS256" claims }

/-- The signing methods `jwt.SigningMethodHMAC` covers. -/
def isHMACAlg (alg : String) : Bool :=
  alg == "HS256" || alg == "HS384" || alg == "HS512"

/-- `validateJWT`: `jwt.Parse` with a key function that rejects
non-HMAC algorithms and supplies the shared secret; the library then
checks the signature. -/
def validateJWT (mac : String → String → Claims → String)
    (secret : String) (w : WireToken) : Except String JwtToken :=
  match w with
  | .malformed => .error "token contains an invalid number of segments"
  | .tok t =>
      if ¬ isHMACAlg t.alg then .error ("unexpected signing method: " ++ t.alg)
      else if t.sig = mac secret t.alg t.claims then .ok t
      else .error "signature is invalid"

/-! ## Account store (`storage.go`, `PostgresStore`)

The `account` table is a list of rows.  `GetAccountByID` returns the
first row matching the id or a not-found error; `DeleteAccount` issues a
SQL `DELETE`, which succeeds (affecting zero rows) even when no row
matches; `UpdateAccount` is the source's no-op; `CreateAccount`
`INSERT`s the row. -/

abbrev Store := List Account

/-- `(*PostgresStore).GetAccountByID`. -/
def GetAccountByID (s : Store) (id : Int) : Except String Account :=
  match s.find? (fun a => a.id == id) with
  | some a => .ok a
  | none => .error ("Account " ++ toString id ++ " not found")

/-- `(*PostgresStore).GetAccountByNumber`. -/
def GetAccountByNumber (s : Store) (number : Int) : Except String Account :=
  match s.find? (fun a => a.number == number) with
  | some a => .ok a
  | none => .error ("Account with number " ++ toString number ++ " not found")

/-- `(*PostgresStore).CreateAccount`: the `INSERT`. -/
def CreateAccount (s : Store) (a : Account) : Except String Store :=
  .ok (s ++ [a])

/-- `(*PostgresStore).DeleteAccount`: `DELETE FROM account WHERE ID = $1`
— no error when zero rows match. -/
def DeleteAccount (s : Store) (id : Int) : Except String Store :=
  .ok (s.filter (fun a => ¬ (a.id == id)))

/-- `(*PostgresStore).UpdateAccount`: the source's body is `return nil`. -/
def UpdateAccount (s : Store) (_a : Account) : Except String Store :=
  .ok s

/-! ## HTTP layer (`api.go`) -/

/-- An HTTP response: status code and JSON body. -/
structure Response where
  status : Nat
  body : Jval

/-- `WriteJSON`. -/
def WriteJSON (status : Nat) (v : Jval) : Response :=
  { status := status, body := v }

/-- The `APIError` envelope `{"error": <message>}`. -/
def APIError (e : String) : Jval := .obj [("error", .str e)]

/-- `PermissionsDenied`: the single opaque denial every gate failure
produces. -/
def PermissionsDenied : Response := WriteJSON 403 (APIError "Permission denied")

/-- An incoming request, restricted to what the embedded handlers
inspect.  `xJwtToken = none` models both a missing `x-jwt-token` header
and an empty one (`Header.Get` returns `""` for a missing header, and
the gate tests `tokenString == ""`).  The body fields hold the result of
`json.Decode` for the handler that reads them, `none` meaning a decode
error. -/
structure Request where
  method : String
  xJwtToken : Option WireToken
  idParam : String
  transferBody : Option TransferRequest
  createBody : Option CreateAccountRequest

/-- Outcome of one handler invocation: a successful write, an error
returned to the adapter, or a runtime panic (nil dereference, failed
type assertion). -/
inductive HResult where
  | ok (resp : Response) (s : Store)
  | err (e : String)
  | panic

/-- Outcome of a fully adapted route: a response (with the resulting
store) or a panic that escapes the handler. -/
inductive RouteOutcome where
  | response (resp : Response) (s : Store)
  | panicked

/-- `makeHTTPHandleFunc`: the single top-level adapter — a handler error
becomes status 400 with the `APIError` envelope; a success passes
through. -/
def makeHTTPHandleFunc (f : Store → Request → HResult)
    (s : Store) (r : Request) : RouteOutcome :=
  match f s r with
  | .ok resp s' => .response resp s'
  | .err e => .response (WriteJSON 400 (APIError e)) s
  | .panic => .panicked

/-- `strconv.Atoi` digit run. -/
def parseDigits (cs : List Char) : Option Nat :=
  if cs = [] then none
  else if cs.all Char.isDigit then
    some (cs.foldl (fun a c => a * 10 + (c.toNat - 48)) 0)
  else none

/-- `strconv.Atoi`: optional sign, decimal digits, errors outside the
64-bit `int` range. -/
def atoi (str : String) : Option Int :=
  match str.toList with
  | '+' :: rest =>
      (parseDigits rest).bind fun n =>
        if n ≤ 9223372036854775807 then some (Int.ofNat n) else none
  | '-' :: rest =>
      (parseDigits rest).bind fun n =>
        if n ≤ 9223372036854775808 then some (-(Int.ofNat n)) else none
  | cs =>
      (parseDigits cs).bind fun n =>
        if n ≤ 9223372036854775807 then some (Int.ofNat n) else none

/-- `getID`: the chi `id` path parameter through `strconv.Atoi`. -/
def getID (r : Request) : Except String Int :=
  match atoi r.idParam with
  | some id => .ok id
  | none => .error ("invalid ID provided " ++ r.idParam)

/-! ## Handlers (`api.go`)

Each handler is a function `Store → Request → HResult`; the ambient
parameters a Go handler reaches through the process environment or the
runtime (the bcrypt core `f`, the fresh salt, the clock, the random
draw) are explicit leading arguments. -/

/-- `HandleGetAccountByID`. -/
def HandleGetAccountByID (s : Store) (r : Request) : HResult :=
  match getID r with
  | .error e => .err e
  | .ok id =>
      match GetAccountByID s id with
      | .error e => .err e
      | .ok account => .ok (WriteJSON 200 (accountJSON account)) s

/-- `HandleDeleteAccount`. -/
def HandleDeleteAccount (s : Store) (r : Request) : HResult :=
  match getID r with
  | .error e => .err e
  | .ok id =>
      match DeleteAccount s id with
      | .error e => .err e
      | .ok s' => .ok (WriteJSON 200 (.obj [("deleted:", .num id)])) s'

/-- `HandleCreateAccount`.  The source discards `NewAccount`'s error
(`account, _ := NewAccount(...)`), so on a hashing failure it passes the
nil `*Account` to `store.CreateAccount`, which dereferences it — a
panic, not an error return. -/
def HandleCreateAccount (f : Bytes → Bytes → Bytes) (salt : Bytes)
    (now : Int) (rnd : Nat) (s : Store) (r : Request) : HResult :=
  match r.createBody with
  | none => .err "json: decode error"
  | some req =>
      match NewAccount f salt req.firstName req.lastName req.password now rnd with
      | .error _ => .panic
      | .ok account =>
          match CreateAccount s account with
          | .error e => .err e
          | .ok s' => .ok (WriteJSON 200 (accountJSON account)) s'

/-- `HandleTransferToAccount`: decodes the body and echoes it back; no
store call. -/
def HandleTransferToAccount (s : Store) (r : Request) : HResult :=
  match r.transferBody with
  | none => .err "json: decode error"
  | some transferReq => .ok (WriteJSON 200 (transferJSON transferReq)) s

/-- `HandleSingleAccount`: method dispatch on the protected
`/account/{id}` route. -/
def HandleSingleAccount (s : Store) (r : Request) : HResult :=
  if r.method = "GET" then HandleGetAccountByID s r
  else if r.method = "DELETE" then HandleDeleteAccount s r
  else .err "method not provided"

/-! ## Authorization gate (`withJWTAuth`) -/

/-- `withJWTAuth`: the middleware around the adapted `/account/{id}`
handler.  Step order as in the source: header, token verification, path
id parse, store resolution, account-number comparison; each failure
returns `PermissionsDenied` at once.  The claim read
`claims["accountNumber"].(float64)` is an unchecked type assertion: on a
validly signed token that lacks the claim, it panics. -/
def withJWTAuth (handlerFunc : Store → Request → RouteOutcome)
    (mac : String → String → Claims → String) (secret : String)
    (s : Store) (r : Request) : RouteOutcome :=
  match r.xJwtToken with
  | none => .response PermissionsDenied s
  | some w =>
      match validateJWT mac secret w with
      | .error _ => .response PermissionsDenied s
      | .ok token =>
          match getID r with
          | .error _ => .response PermissionsDenied s
          | .ok userID =>
              match GetAccountByID s userID with
              | .error _ => .response PermissionsDenied s
              | .ok account =>
                  match lookupClaim token.claims "accountNumber" with
                  | none => .panicked
                  | some n =>
                      if account.number ≠ n then .response PermissionsDenied s
                      else handlerFunc s r

/-- The `/account/{id}` route as wired in `Run`:
`withJWTAuth(makeHTTPHandleFunc(s.HandleSingleAccount), s.store)`. -/
def routeSingleAccount (mac : String → String → Claims → String)
    (secret : String) (s : Store) (r : Request) : RouteOutcome :=
  withJWTAuth (makeHTTPHandleFunc HandleSingleAccount) mac secret s r

/-- Keys of a JSON object. -/
def jsonKeys : Jval → List String
  | .obj fields => fields.map Prod.fst
  | _ => []

/-! ## Concrete sample values used by the closed-instance theorems -/

/-- A concrete (collision-free) stand-in for the bcrypt digest core. -/
def sampleF : Bytes → Bytes → Bytes := fun _ c => c

/-- A concrete 22-character salt encoding. -/
def sampleSalt : Bytes := List.replicate 22 'a'

/-- The account `NewAccount sampleF sampleSalt "A" "B" ['p','w'] 0 0`
produces. -/
def sampleAccount : Account where
  id := 0
  firstName := "A"
  lastName := "B"
  number := Int.ofNat (0 % 100000)
  balance := 0
  createdAt := 0
  encryptedPassword := bcryptEncode sampleF sampleSalt ['p', 'w']

/-- An account stored under id 3 with account number 5. -/
def storedAccount : Account where
  id := 3
  firstName := "A"
  lastName := "B"
  number := 5
  balance := 0
  createdAt := 0
  encryptedPassword := bcryptEncode sampleF sampleSalt ['p', 'w']

/-- A concrete HMAC stand-in. -/
def sampleMac : String → String → Claims → String := fun _ _ _ => "sig"

/-- A request with no `x-jwt-token` header. -/
def sampleRequestNoToken : Request where
  method := "DELETE"
  xJwtToken := none
  idParam := "7"
  transferBody := none
  createBody := none

/-- The token `createJWT sampleMac "secret" storedAccount` issues. -/
def sampleToken : JwtToken where
  alg := "HS256"
  claims := [("expiresAt", 15000), ("accountNumber", 5)]
  sig := sampleMac "secret" "HS256" [("expiresAt", 15000), ("accountNumber", 5)]

/-- A request for `/account/3` carrying `sampleToken`. -/
def sampleRequestWithToken : Request where
  method := "GET"
  xJwtToken := some (.tok sampleToken)
  idParam := "3"
  transferBody := none
  createBody := none

/-- A create-account request whose password exceeds bcrypt's 72-byte
limit. -/
def sampleLongPwRequest : Request where
  method := "POST"
  xJwtToken := none
  idParam := ""
  transferBody := none
  createBody := some { firstName := "A", lastName := "B",
                       password := List.replicate 73 'a' }

/-- A create-account request with an ordinary password. -/
def sampleShortPwRequest : Request where
  method := "POST"
  xJwtToken := none
  idParam := ""
  transferBody := none
  createBody := some { firstName := "A", lastName := "B",
                       password := ['p', 'w'] }

/-- The token value `createJWT mac secret account` produces (named so
the theorems can mention it). -/
def issuedToken (mac : String → String → Claims → String)
    (secret : String) (account : Account) : JwtToken where
  alg := "HS256"
  claims := [("expiresAt", 15000), ("accountNumber", account.number)]
  sig := mac secret "HS256"
    [("expiresAt", 15000), ("accountNumber", account.number)]

/-! ## Layout lemmas on the encoded hash -/

theorem bcryptEncode_take7 (f : Bytes → Bytes → Bytes) (salt pw : Bytes) :
    (bcryptEncode f salt pw).take 7 = bcryptMagic := by
  have h : bcryptMagic.length = 7 := by decide
  simp [bcryptEncode, List.append_assoc, List.take_left' h]

theorem bcryptEncode_salt (f : Bytes → Bytes → Bytes) (salt pw : Bytes)
    (hsalt : salt.length = 22) :
    ((bcryptEncode f salt pw).drop 7).take 22 = salt := by
  have h7 : bcryptMagic.length = 7 := by decide
  simp [bcryptEncode, List.append_assoc, List.drop_left' h7,
    List.take_left' hsalt]

theorem bcryptEncode_digest (f : Bytes → Bytes → Bytes) (salt pw : Bytes)
    (hsalt : salt.length = 22) :
    (bcryptEncode f salt pw).drop 29 = f salt pw := by
  have h29 : (bcryptMagic ++ salt).length = 29 := by
    simp [hsalt]; decide
  calc (bcryptEncode f salt pw).drop 29
      = ((bcryptMagic ++ salt) ++ f salt pw).drop 29 := by
        simp [bcryptEncode, List.append_assoc]
    _ = f salt pw := List.drop_left' h29

theorem bcryptEncode_take29 (f : Bytes → Bytes → Bytes) (salt pw : Bytes)
    (hsalt : salt.length = 22) :
    (bcryptEncode f salt pw).take 29 = bcryptMagic ++ salt := by
  have h29 : (bcryptMagic ++ salt).length = 29 := by simp [hsalt]; decide
  calc (bcryptEncode f salt pw).take 29
      = ((bcryptMagic ++ salt) ++ f salt pw).take 29 := by
        simp [bcryptEncode, List.append_assoc]
    _ = bcryptMagic ++ salt := List.take_left' h29

theorem NewAccount_ok_iff (f : Bytes → Bytes → Bytes) (salt : Bytes)
    (fn ln : String) (pw : Bytes) (now : Int) (rnd : Nat) (acc : Account)
    (hok : NewAccount f salt fn ln pw now rnd = .ok acc) :
    pw.length ≤ 72 ∧
      acc = { id := 0, firstName := fn, lastName := ln,
              number := Int.ofNat (rnd % 100000), balance := 0,
              createdAt := now,
              encryptedPassword := bcryptEncode f salt pw } := by
  by_cases h72 : pw.length > 72
  · simp [NewAccount, GenerateFromPassword, h72] at hok
  · simp [NewAccount, GenerateFromPassword, h72] at hok
    exact ⟨Nat.le_of_not_lt h72, hok.symm⟩

/-- Claim C2: verifying the password that was hashed at account creation
succeeds, and (under the collision-freeness idealization of the bcrypt
digest — the spec's "overwhelming probability") verifying any other
password fails; `ValidatePW` is a total boolean function, so a wrong
password is a normal `false`, never an exception. -/
theorem validatePW_roundtrip (f : Bytes → Bytes → Bytes) (salt : Bytes)
    (fn ln : String) (pw : Bytes) (now : Int) (rnd : Nat) (acc : Account)
    (hsalt : salt.length = 22)
    (hok : NewAccount f salt fn ln pw now rnd = .ok acc) :
    acc.ValidatePW f pw = true ∧
      ∀ q : Bytes, (∀ s a b, f s a = f s b → a = b) → q ≠ pw →
        acc.ValidatePW f q = false := by
  obtain ⟨-, rfl⟩ := NewAccount_ok_iff f salt fn ln pw now rnd acc hok
  constructor
  · simp [Account.ValidatePW, CompareHashAndPassword,
      bcryptEncode_take7, bcryptEncode_salt f salt pw hsalt,
      bcryptEncode_digest f salt pw hsalt]
  · intro q hinj hne
    simp [Account.ValidatePW, CompareHashAndPassword,
      bcryptEncode_take7, bcryptEncode_salt f salt pw hsalt,
      bcryptEncode_digest f salt pw hsalt]
    intro heq
    exact absurd (hinj salt pw q heq) (fun h => hne h.symm)

theorem validatePW_roundtrip_witness :
    sampleAccount.ValidatePW sampleF ['p', 'w'] = true ∧
    sampleAccount.ValidatePW sampleF ['q'] = false := by
  have h := validatePW_roundtrip sampleF sampleSalt
    "A" "B" ['p', 'w'] 0 0 sampleAccount (by decide) rfl
  exact ⟨h.1, h.2 ['q'] (fun _ _ _ hh => hh) (by decide)⟩

/-- Claim C6: the stored hash differs from the plaintext it came from
(the hash starts with the fixed bcrypt header and this account's salt
encoding, so any plaintext not beginning with those 29 bytes — every
plaintext, up to the 2⁻¹³¹ chance of guessing the salt — differs from
it), and `encodedPassword` never appears in the JSON of an account: the
key list of `accountJSON` is fixed and omits the hash field, and both
the create-account and get-account success responses serialize accounts
through exactly that object. -/
theorem hash_not_plaintext_and_not_serialized (f : Bytes → Bytes → Bytes)
    (salt : Bytes) (fn ln : String) (pw : Bytes) (now : Int) (rnd : Nat)
    (acc : Account) (hsalt : salt.length = 22)
    (hok : NewAccount f salt fn ln pw now rnd = .ok acc)
    (hpw : pw.take 29 ≠ bcryptMagic ++ salt) :
    acc.encryptedPassword ≠ pw ∧
    (∀ b : Account, jsonKeys (accountJSON b) =
      ["id", "firstName", "lastName", "number", "balance", "createdat"]) ∧
    (∀ b : Account, "encryptedPassword" ∉ jsonKeys (accountJSON b)) ∧
    (∀ (s : Store) (r : Request) (resp : Response) (s2 : Store),
      HandleCreateAccount f salt now rnd s r = .ok resp s2 →
        ∃ b : Account, resp = WriteJSON 200 (accountJSON b)) ∧
    (∀ (s : Store) (r : Request) (resp : Response) (s2 : Store),
      HandleGetAccountByID s r = .ok resp s2 →
        ∃ b : Account, resp = WriteJSON 200 (accountJSON b)) := by
  obtain ⟨-, rfl⟩ := NewAccount_ok_iff f salt fn ln pw now rnd acc hok
  refine ⟨?_, fun b => rfl, fun b => by simp [jsonKeys, accountJSON], ?_, ?_⟩
  · intro h
    apply hpw
    have h2 : bcryptEncode f salt pw = pw := h
    calc pw.take 29 = (bcryptEncode f salt pw).take 29 := by rw [h2]
      _ = bcryptMagic ++ salt := bcryptEncode_take29 f salt pw hsalt
  · intro s r resp s2 h
    unfold HandleCreateAccount at h
    split at h
    · cases h
    · split at h
      · cases h
      · rename_i account _
        split at h
        · cases h
        · cases h
          exact ⟨account, rfl⟩
  · intro s r resp s2 h
    unfold HandleGetAccountByID at h
    split at h
    · cases h
    · split at h
      · cases h
      · rename_i account _
        cases h
        exact ⟨account, rfl⟩

theorem hash_not_plaintext_witness :
    sampleAccount.encryptedPassword ≠ ['p', 'w'] ∧
    "encryptedPassword" ∉ jsonKeys (accountJSON sampleAccount) := by
  have h := hash_not_plaintext_and_not_serialized sampleF sampleSalt
    "A" "B" ['p', 'w'] 0 0 sampleAccount (by decide) rfl (by decide)
  exact ⟨h.1, h.2.2.1 sampleAccount⟩

/-- Claim C7: the allocated account number lies in `[0, 100000)`; it is
a function of the random draw alone (`NewAccount` takes no store and
consults no existing account — no uniqueness check); and no store
operation ever rewrites a stored account: `CreateAccount` appends,
`DeleteAccount` only removes whole rows (every surviving row was already
present, and rows with a different id survive unchanged), and
`UpdateAccount` is the identity — so the number assigned at
construction is never reassigned. -/
theorem account_number_allocation (f : Bytes → Bytes → Bytes)
    (salt : Bytes) (fn ln : String) (pw : Bytes) (now : Int) (rnd : Nat)
    (acc : Account)
    (hok : NewAccount f salt fn ln pw now rnd = .ok acc) :
    (0 ≤ acc.number ∧ acc.number < 100000) ∧
    acc.number = Int.ofNat (rnd % 100000) ∧
    (∀ (s s2 : Store) (b x : Account),
      b ∈ s → CreateAccount s x = .ok s2 → b ∈ s2) ∧
    (∀ (s s2 : Store) (b : Account) (i : Int),
      b ∈ s → b.id ≠ i → DeleteAccount s i = .ok s2 → b ∈ s2) ∧
    (∀ (s s2 : Store) (i : Int),
      DeleteAccount s i = .ok s2 → ∀ b ∈ s2, b ∈ s) ∧
    (∀ (s : Store) (b : Account), UpdateAccount s b = .ok s) := by
  obtain ⟨-, rfl⟩ := NewAccount_ok_iff f salt fn ln pw now rnd acc hok
  refine ⟨⟨Int.ofNat_nonneg _, ?_⟩, rfl, ?_, ?_, ?_, fun s b => rfl⟩
  · show Int.ofNat (rnd % 100000) < 100000
    have hm : rnd % 100000 < 100000 := Nat.mod_lt rnd (by decide)
    exact Int.ofNat_lt.mpr hm
  · intro s s2 b x hb hc
    cases hc
    exact List.mem_append_left _ hb
  · intro s s2 b i hb hne hd
    cases hd
    simp [List.mem_filter, hb, hne]
  · intro s s2 i hd b hb
    cases hd
    exact (List.mem_filter.mp hb).1

theorem account_number_allocation_witness :
    (0:Int) ≤ sampleAccount.number ∧ sampleAccount.number < 100000 := by
  have h := account_number_allocation sampleF sampleSalt
    "A" "B" ['p', 'w'] 0 0 sampleAccount rfl
  exact h.1

/-- Claim C1: the authorization gate checks, in order and
short-circuiting — (1) header, (2) token verification, (3) path id
parse, (4) store resolution, (5) account-number comparison — and every
one of the five failures yields the same `PermissionsDenied` response
(status 403, message "Permission denied"), while full success invokes
the wrapped handler.  Each conjunct fixes one step's failure (given that
all earlier steps passed, per the source's order) or the success
path. -/
theorem withJWTAuth_gate (handler : Store → Request → RouteOutcome)
    (mac : String → String → Claims → String) (secret : String)
    (s : Store) (r : Request) :
    (r.xJwtToken = none →
      withJWTAuth handler mac secret s r = .response PermissionsDenied s) ∧
    (∀ w e, r.xJwtToken = some w → validateJWT mac secret w = .error e →
      withJWTAuth handler mac secret s r = .response PermissionsDenied s) ∧
    (∀ w t e, r.xJwtToken = some w → validateJWT mac secret w = .ok t →
      getID r = .error e →
      withJWTAuth handler mac secret s r = .response PermissionsDenied s) ∧
    (∀ w t n e, r.xJwtToken = some w → validateJWT mac secret w = .ok t →
      getID r = .ok n → GetAccountByID s n = .error e →
      withJWTAuth handler mac secret s r = .response PermissionsDenied s) ∧
    (∀ w t n acc m, r.xJwtToken = some w → validateJWT mac secret w = .ok t →
      getID r = .ok n → GetAccountByID s n = .ok acc →
      lookupClaim t.claims "accountNumber" = some m → acc.number ≠ m →
      withJWTAuth handler mac secret s r = .response PermissionsDenied s) ∧
    (∀ w t n acc m, r.xJwtToken = some w → validateJWT mac secret w = .ok t →
      getID r = .ok n → GetAccountByID s n = .ok acc →
      lookupClaim t.claims "accountNumber" = some m → acc.number = m →
      withJWTAuth handler mac secret s r = handler s r) ∧
    PermissionsDenied = WriteJSON 403 (APIError "Permission denied") := by
  refine ⟨?_, ?_, ?_, ?_, ?_, ?_, rfl⟩
  · intro h; simp [withJWTAuth, h]
  · intro w e h hv; simp [withJWTAuth, h, hv]
  · intro w t e h hv hi; simp [withJWTAuth, h, hv, hi]
  · intro w t n e h hv hi hg; simp [withJWTAuth, h, hv, hi, hg]
  · intro w t n acc m h hv hi hg hc hne
    simp [withJWTAuth, h, hv, hi, hg, hc, hne]
  · intro w t n acc m h hv hi hg hc heq
    simp [withJWTAuth, h, hv, hi, hg, hc, heq]

theorem withJWTAuth_gate_witness :
    (withJWTAuth (makeHTTPHandleFunc HandleSingleAccount) sampleMac "secret"
      [storedAccount] sampleRequestNoToken = .response PermissionsDenied
      [storedAccount]) ∧
    (withJWTAuth (makeHTTPHandleFunc HandleSingleAccount) sampleMac "secret"
      [storedAccount] sampleRequestWithToken =
      makeHTTPHandleFunc HandleSingleAccount [storedAccount]
        sampleRequestWithToken) := by
  constructor
  · exact (withJWTAuth_gate (makeHTTPHandleFunc HandleSingleAccount)
      sampleMac "secret" [storedAccount] sampleRequestNoToken).1 rfl
  · exact (withJWTAuth_gate (makeHTTPHandleFunc HandleSingleAccount)
      sampleMac "secret" [storedAccount]
      sampleRequestWithToken).2.2.2.2.2.1 (.tok sampleToken) sampleToken
      3 storedAccount 5 rfl rfl rfl rfl rfl rfl

/-- Claim C3: issuing a token for an account and then verifying it
succeeds and yields claims whose `accountNumber` is exactly the
account's number — the bound account number round-trips unchanged
through `createJWT` then `validateJWT`. -/
theorem jwt_roundtrip (mac : String → String → Claims → String)
    (secret : String) (account : Account) (t : JwtToken)
    (hok : createJWT mac secret account = .ok t) :
    validateJWT mac secret (.tok t) = .ok t ∧
    lookupClaim t.claims "accountNumber" = some account.number := by
  have ht : t = issuedToken mac secret account := by
    simp [createJWT, issuedToken] at hok ⊢
    exact hok.symm
  subst ht
  constructor
  · simp [validateJWT, isHMACAlg, issuedToken]
  · rfl

theorem jwt_roundtrip_witness :
    validateJWT sampleMac "secret" (.tok sampleToken) = .ok sampleToken ∧
    lookupClaim sampleToken.claims "accountNumber" =
      some storedAccount.number := by
  exact jwt_roundtrip sampleMac "secret" storedAccount sampleToken rfl

/-- Claim C4 (refuted by the code): `createJWT` reads the secret from
the environment and calls `SignedString`, which with an HMAC method
accepts any byte-slice key — the empty key included.  With the secret
unavailable (empty), issuance still returns a successfully signed token
and no error: -/
theorem createJWT_empty_secret_signs
    (mac : String → String → Claims → String) (account : Account) :
    createJWT mac "" account = .ok (issuedToken mac "" account) :=
  rfl

/-- Claim C5: a delete of an id naming no existing account cannot reach
the handler — the gate's store-resolution step (or an earlier step)
fails first — so the wired `/account/{id}` route answers with the 403
error envelope: an error response, never a success and never a crash.
(`PostgresStore.DeleteAccount` itself would not object — SQL `DELETE` of
zero rows succeeds — but the gate denies before `HandleDeleteAccount`
runs.) -/
theorem delete_nonexistent_errors
    (mac : String → String → Claims → String) (secret : String)
    (s : Store) (r : Request)
    (h : ∀ n, getID r = .ok n → ∀ b ∈ s, b.id ≠ n) :
    routeSingleAccount mac secret s r = .response PermissionsDenied s ∧
    PermissionsDenied = WriteJSON 403 (APIError "Permission denied") := by
  refine ⟨?_, rfl⟩
  unfold routeSingleAccount
  cases hw : r.xJwtToken with
  | none => simp [withJWTAuth, hw]
  | some w =>
    cases hv : validateJWT mac secret w with
    | error e => simp [withJWTAuth, hw, hv]
    | ok token =>
      cases hi : getID r with
      | error e => simp [withJWTAuth, hw, hv, hi]
      | ok n =>
        have hfind : s.find? (fun a => a.id == n) = none := by
          rw [List.find?_eq_none]
          intro b hb
          simpa using h n hi b hb
        simp [withJWTAuth, hw, hv, hi, GetAccountByID, hfind]

theorem delete_nonexistent_errors_witness :
    routeSingleAccount sampleMac "secret" [] sampleRequestNoToken =
      .response PermissionsDenied [] := by
  exact (delete_nonexistent_errors sampleMac "secret" [] sampleRequestNoToken
    (fun n _ b hb => absurd hb (List.not_mem_nil b))).1

/-- Claim C8: on a well-formed transfer body the handler answers 200
echoing exactly the decoded body, and leaves the store untouched — the
returned store is the input store, and the handler performs no store
operation at all (its success carries `s` through unchanged). -/
theorem transfer_echoes_and_persists_nothing (s : Store) (r : Request)
    (t : TransferRequest) (h : r.transferBody = some t) :
    HandleTransferToAccount s r = .ok (WriteJSON 200 (transferJSON t)) s ∧
    makeHTTPHandleFunc HandleTransferToAccount s r =
      .response (WriteJSON 200 (transferJSON t)) s := by
  constructor
  · simp [HandleTransferToAccount, h]
  · simp [makeHTTPHandleFunc, HandleTransferToAccount, h]

theorem transfer_echo_witness :
    makeHTTPHandleFunc HandleTransferToAccount [storedAccount]
      { method := "POST", xJwtToken := none, idParam := "",
        transferBody := some ⟨42, 7⟩, createBody := none } =
      .response (WriteJSON 200 (transferJSON ⟨42, 7⟩)) [storedAccount] := by
  exact (transfer_echoes_and_persists_nothing [storedAccount] _ ⟨42, 7⟩ rfl).2

/-- Claim C9: `makeHTTPHandleFunc` is the single adapter — a handler
error becomes exactly status 400 with the `{"error": message}` envelope,
a handler success passes through untouched (so the adapter introduces no
other error status), and the authorization denial is status 403 with the
same envelope shape. -/
theorem adapter_error_envelope (f : Store → Request → HResult)
    (s : Store) (r : Request) :
    (∀ e, f s r = .err e →
      makeHTTPHandleFunc f s r = .response (WriteJSON 400 (APIError e)) s) ∧
    (∀ resp s2, f s r = .ok resp s2 →
      makeHTTPHandleFunc f s r = .response resp s2) ∧
    PermissionsDenied = WriteJSON 403 (APIError "Permission denied") := by
  refine ⟨?_, ?_, rfl⟩
  · intro e h; simp [makeHTTPHandleFunc, h]
  · intro resp s2 h; simp [makeHTTPHandleFunc, h]

theorem adapter_error_envelope_witness :
    makeHTTPHandleFunc (fun _ _ => .err "boom") [] sampleRequestNoToken =
      .response (WriteJSON 400 (APIError "boom")) [] := by
  exact (adapter_error_envelope (fun _ _ => .err "boom") []
    sampleRequestNoToken).1 "boom" rfl

/-- Claim C10: `HandleCreateAccount` discards `NewAccount`'s error, so
when bcrypt rejects the password (longer than 72 bytes) the handler
passes the nil account to the store and dereferences it — a panic, not
an error response — while any request whose password respects the limit
can never reach the panic: absence of a hashing failure is the unstated
precondition of the create path. -/
theorem create_discards_hash_error :
    HandleCreateAccount sampleF sampleSalt 0 0 [] sampleLongPwRequest =
      .panic ∧
    NewAccount sampleF sampleSalt "A" "B" (List.replicate 73 'a') 0 0 =
      .error "bcrypt: password length exceeds 72 bytes" ∧
    (∀ (f : Bytes → Bytes → Bytes) (salt : Bytes) (now : Int) (rnd : Nat)
      (s : Store) (r : Request) (body : CreateAccountRequest),
      r.createBody = some body → body.password.length ≤ 72 →
      HandleCreateAccount f salt now rnd s r ≠ .panic) := by
  refine ⟨?_, ?_, ?_⟩
  · rfl
  · rfl
  · intro f salt now rnd s r body hb hlen
    have h72 : ¬ body.password.length > 72 := Nat.not_lt.mpr hlen
    simp [HandleCreateAccount, hb, NewAccount, GenerateFromPassword, h72,
      CreateAccount]

theorem create_discards_hash_error_witness :
    HandleCreateAccount sampleF sampleSalt 0 0 [] sampleShortPwRequest ≠
      .panic := by
  exact create_discards_hash_error.2.2 sampleF sampleSalt 0 0 []
    sampleShortPwRequest { firstName := "A", lastName := "B",
                           password := ['p', 'w'] } rfl (by decide)

end BankGo
